import Mathlib

/-!
# Verification of the TierMaker AniDB catalog client

Shallow embedding of the rate-limited, cached, sequential AniDB catalog
client (`src/utils/anidb.ts`, here `src/unnamed/part_002`) and of the local
title index (`src/utils/anidb-titles.ts`, here `src/unnamed/part_001`).

Modelling conventions:
* JavaScript strings are Lean `String`s; the handful of string operations
  the source uses (`trim`, `toLowerCase`, `includes`, `split`, `startsWith`,
  the two regex replaces) are re-implemented structurally over `List Char`
  so that every definition is executable and kernel-reducible.  ASCII
  behaviour is what the proofs rely on; Unicode case folding differences
  are irrelevant to every statement below.
* JavaScript truthiness of strings / `null` / numbers is modelled
  explicitly (`jsOrStr`, `undefinedIfEmpty`, the `aid ≠ 0` test).
* `Date.now()`, `setTimeout`, `fetch` and `DOMParser` are the browser
  environment.  Time is an explicit fake clock in `ClientState`
  (`setTimeout` fires exactly after its delay); the network is an explicit
  environment function `aid ↦ (latency, response)`; the parsed XML document
  produced by `DOMParser` is part of the environment's response (the raw
  response text travels next to it because the source inspects both).
* `localStorage` is the `cache` field of `ClientState`; a cache write is a
  functional update (the source's best-effort write succeeding).
* `console.log` / `console.warn` / `console.debug` calls are pure logging;
  the single warn that the picture-URL fallback emits is surfaced as an
  explicit `Bool` in `buildPictureUrl` because a claim talks about it.
* `parseInt` / `parseFloat` on a non-numeric string produce `NaN`; the
  model uses `Option Nat` with `none` for `NaN`.  The floating-point
  division `parseFloat(text) / 100` of the rating is not modelled
  numerically: the selected raw rating text is carried instead (no claim
  touches the numeric value).
-/

/-! ## JavaScript string primitives, modelled structurally -/

/-- JS whitespace for `String.prototype.trim` (ASCII part). -/
def isJsSpace (c : Char) : Bool :=
  c = ' ' ∨ c = '\t' ∨ c = '\n' ∨ c = '\r' ∨ c = '\x0b' ∨ c = '\x0c'

/-- `s.trim()`. -/
def jsTrim (s : String) : String :=
  ⟨(s.data.dropWhile isJsSpace).reverse.dropWhile isJsSpace |>.reverse⟩

/-- `s.toLowerCase()` (ASCII). -/
def jsToLower (s : String) : String :=
  ⟨s.data.map Char.toLower⟩

/-- Is `pat` a prefix of `l`? -/
def listIsPrefixOf : List Char → List Char → Bool
  | [], _ => true
  | _ :: _, [] => false
  | p :: ps, c :: cs => p = c && listIsPrefixOf ps cs

/-- `s.startsWith(pat)`. -/
def jsStartsWith (s pat : String) : Bool :=
  listIsPrefixOf pat.data s.data

/-- Does `pat` occur as a contiguous sublist of `l`? -/
def listContainsSub (pat : List Char) : List Char → Bool
  | [] => pat.isEmpty
  | c :: cs => listIsPrefixOf pat (c :: cs) || listContainsSub pat cs

/-- `s.includes(pat)`. -/
def includesSub (s pat : String) : Bool :=
  listContainsSub pat.data s.data

/-- Split at the first occurrence of `pat`, returning the pieces before and
after it, or `none` when `pat` does not occur.  (`pat` nonempty in every
use site.) -/
def splitFirst (pat : List Char) : List Char → Option (List Char × List Char)
  | [] => if pat.isEmpty then some ([], []) else none
  | c :: cs =>
    if listIsPrefixOf pat (c :: cs) then
      some ([], (c :: cs).drop pat.length)
    else
      match splitFirst pat cs with
      | some (pre, post) => some (c :: pre, post)
      | none => none

/-- `s.split(sep)` (all pieces, in order; `sep` nonempty). -/
def jsSplit (s sep : String) : List String :=
  go s.data.length s.data
where
  go : Nat → List Char → List String
    | 0, l => [⟨l⟩]
    | Nat.succ fuel, l =>
      match splitFirst sep.data l with
      | some (pre, post) => ⟨pre⟩ :: go fuel post
      | none => [⟨l⟩]

/-- `s.endsWith(pat)`. -/
def jsEndsWith (s pat : String) : Bool :=
  listIsPrefixOf pat.data.reverse s.data.reverse

/-- JS `a || b` for a nullable string `a`: `null` and `""` are falsy. -/
def jsOrStr (a : Option String) (b : String) : String :=
  match a with
  | some s => if s = "" then b else s
  | none => b

/-- JS `a || null` / `a || undefined` for a nullable string: keeps `a` only
when it is truthy (non-null and nonempty). -/
def undefinedIfEmpty (a : Option String) : Option String :=
  match a with
  | some s => if s = "" then none else some s
  | none => none

/-- Leading-digit run of a char list. -/
def takeDigits : List Char → List Char
  | [] => []
  | c :: cs => if c.isDigit then c :: takeDigits cs else []

/-- Digit list to `Nat`. -/
def digitsToNat (l : List Char) : Nat :=
  l.foldl (fun acc c => acc * 10 + (c.toNat - '0'.toNat)) 0

/-- JS `parseInt(s)` restricted to base 10 and no sign, as the source uses
it: skip leading whitespace, read the leading digit run; `NaN` (no digits)
is `none`. -/
def parseIntJs (s : String) : Option Nat :=
  let ds := takeDigits (s.data.dropWhile isJsSpace)
  if ds.isEmpty then none else some (digitsToNat ds)

/-- Test for the regex `^\d+$`: nonempty and all ASCII digits. -/
def isAllDigits (s : String) : Bool :=
  !s.data.isEmpty && s.data.all Char.isDigit

/-- Skip up to and including the first `'>'`. -/
def dropToGt : List Char → Option (List Char)
  | [] => none
  | c :: cs => if c = '>' then some cs else dropToGt cs

/-- The regex replace `innerHTML.replace(/<[^>]*>/g, '')`: delete every
`'<'`-to-next-`'>'` run; a `'<'` with no later `'>'` is kept (the regex
does not match it). -/
def stripTags (s : String) : String :=
  ⟨go s.data.length s.data⟩
where
  go : Nat → List Char → List Char
    | 0, l => l
    | Nat.succ fuel, l =>
      match l with
      | [] => []
      | c :: cs =>
        if c = '<' then
          match dropToGt cs with
          | some rest => go fuel rest
          | none => c :: go fuel cs
        else c :: go fuel cs

/-- The regex replace `.replace(/[\r\n]+/g, ' ')`: each maximal run of CR/LF
characters becomes a single space. -/
def collapseNewlines (s : String) : String :=
  ⟨go false s.data⟩
where
  go : Bool → List Char → List Char
    | _, [] => []
    | inRun, c :: cs =>
      if c = '\r' ∨ c = '\n' then
        if inRun then go true cs else ' ' :: go true cs
      else c :: go false cs

/-! ## Association-list maps (JS `Map` preserves insertion order) -/

/-- `map.get(k)` for a `Map<number, _>` modelled as an insertion-ordered
association list. -/
def lookupNat {α : Type} : List (Nat × α) → Nat → Option α
  | [], _ => none
  | (k, v) :: rest, key => if k = key then some v else lookupNat rest key

/-- `map.set(k, v)`: replace in place, or append. -/
def setNat {α : Type} : List (Nat × α) → Nat → α → List (Nat × α)
  | [], key, v => [(key, v)]
  | (k, w) :: rest, key, v =>
    if k = key then (k, v) :: rest else (k, w) :: setNat rest key v

/-- `map.get(k)` for a `Map<string, _>`. -/
def lookupStr {α : Type} : List (String × α) → String → Option α
  | [], _ => none
  | (k, v) :: rest, key => if k = key then some v else lookupStr rest key

/-- `set.add(x)` for a `Set<number>` modelled as an insertion-ordered
duplicate-free list: adding an existing element keeps its position. -/
def setAdd (l : List Nat) (x : Nat) : List Nat :=
  if l.contains x then l else l ++ [x]

/-! ## Local title index (`anidb-titles.ts`) -/

/-- One line of `anime-titles.dat` (`AnimeTitleEntry` in the source;
`type`: 1 = primary, 2 = synonyms, 3 = shorttitles, 4 = official). -/
structure AnimeTitleEntry where
  aid : Nat
  type : Nat
  lang : String
  title : String
deriving Repr, DecidableEq

/-- `AnimeTitleIndex`: `byAid` and `byTitle` (insertion-ordered maps; the
`Set<number>` values of `byTitle` are insertion-ordered duplicate-free
lists). -/
structure AnimeTitleIndex where
  byAid : List (Nat × List AnimeTitleEntry)
  byTitle : List (String × List Nat)
deriving Repr, DecidableEq

/-- Outcome of `loadAnimeTitles()`: the browser fetch of the static
dataset either produces an index or fails with an error message.  Each
exported function of `anidb-titles.ts` awaits this load inside its own
`try`/`catch`; the load outcome is therefore an explicit argument. -/
def LoadOutcome := Except String AnimeTitleIndex

/-- `initAnimeTitles()`: awaits the load inside `try { … } catch { warn }`,
so it resolves normally on both outcomes (the load error is only logged,
never propagated). -/
def initAnimeTitles (load : LoadOutcome) : Except String Unit :=
  match load with
  | .ok _ => .ok ()
  | .error _ => .ok ()

/-- Stable insertion sort by a strict `before` test: `x` is placed before
the first element `y` with `before x y`; ties keep input order.  This is
the stable order that `Array.prototype.sort` guarantees for the consistent
comparator used in `searchAnimeTitles`. -/
def stableSortBy {α : Type} (before : α → α → Bool) : List α → List α
  | [] => []
  | x :: xs => insertSorted before x (stableSortBy before xs)
where
  insertSorted (before : α → α → Bool) (x : α) : List α → List α
    | [] => [x]
    | y :: ys => if before x y then x :: y :: ys else y :: insertSorted before x ys

/-- The comparator of `searchAnimeTitles` (lines 159–188): primary-title
matches first, then Chinese-title matches, else keep order.  Returns the
JS comparator's sign as an `Int`. -/
def titleCompare (index : AnimeTitleIndex) (keywordLower : String) (aid1 aid2 : Nat) : Int :=
  let titles1 := (lookupNat index.byAid aid1).getD []
  let titles2 := (lookupNat index.byAid aid2).getD []
  let hasPrimary1 := titles1.any fun t =>
    t.type = 1 && includesSub (jsToLower t.title) keywordLower
  let hasPrimary2 := titles2.any fun t =>
    t.type = 1 && includesSub (jsToLower t.title) keywordLower
  if hasPrimary1 && !hasPrimary2 then -1
  else if !hasPrimary1 && hasPrimary2 then 1
  else
    let isZh := fun (t : AnimeTitleEntry) =>
      t.lang = "zh" || t.lang = "zh-Hans" || t.lang = "zh-Hant"
    let hasChinese1 := titles1.any fun t =>
      isZh t && includesSub (jsToLower t.title) keywordLower
    let hasChinese2 := titles2.any fun t =>
      isZh t && includesSub (jsToLower t.title) keywordLower
    if hasChinese1 && !hasChinese2 then -1
    else if !hasChinese1 && hasChinese2 then 1
    else 0

/-- The fuzzy-match loop of `searchAnimeTitles`: walk `byTitle` in
insertion order, union in the aids of every title containing the keyword,
and break once the accumulated set has reached `limit * 2` (the size check
runs after each entry). -/
def fuzzyLoop (kw : String) (cap : Nat) : List (String × List Nat) → List Nat → List Nat
  | [], acc => acc
  | (title, aids) :: rest, acc =>
    let acc := if includesSub title kw then aids.foldl setAdd acc else acc
    if acc.length ≥ cap then acc else fuzzyLoop kw cap rest acc

/-- `searchAnimeTitles(keyword, limit)`: empty keyword short-circuits; a
failed load is caught and yields `[]`; otherwise exact matches are
collected first, then the fuzzy loop, then slice / relevance sort / slice. -/
def searchAnimeTitles (load : LoadOutcome) (keyword : String) (limit : Nat := 50) : List Nat :=
  if jsTrim keyword = "" then []
  else
    match load with
    | .error _ => []
    | .ok index =>
      let keywordLower := jsTrim (jsToLower keyword)
      let exact :=
        match lookupStr index.byTitle keywordLower with
        | some aids => aids.foldl setAdd []
        | none => []
      let matched := fuzzyLoop keywordLower (limit * 2) index.byTitle exact
      let result := matched.take limit
      let sorted := stableSortBy
        (fun a b => titleCompare index keywordLower a b < 0) result
      sorted.take limit

/-- `getAnimeTitles(aid)`: all index entries for one aid; a failed load is
caught and yields `[]`. -/
def getAnimeTitles (load : LoadOutcome) (aid : Nat) : List AnimeTitleEntry :=
  match load with
  | .error _ => []
  | .ok index => (lookupNat index.byAid aid).getD []

/-- `getMainTitle(aid)`: the type-1 title, with `?.title || null`
truthiness. -/
def getMainTitle (load : LoadOutcome) (aid : Nat) : Option String :=
  let titles := getAnimeTitles load aid
  undefinedIfEmpty ((titles.find? fun t => t.type = 1).map (·.title))

/-- `getChineseTitle(aid)`: zh-Hans, then zh-Hant, then zh. -/
def getChineseTitle (load : LoadOutcome) (aid : Nat) : Option String :=
  let titles := getAnimeTitles load aid
  match titles.find? fun t => t.lang = "zh-Hans" with
  | some t => some t.title
  | none =>
    match titles.find? fun t => t.lang = "zh-Hant" with
    | some t => some t.title
    | none =>
      match titles.find? fun t => t.lang = "zh" with
      | some t => some t.title
      | none => none

/-! ## AniDB data model (`anidb.ts`) -/

/-- One entry of `titles.title` in `AnidbAnimeData` (source fields
`_lang`, `_type`, `__text`). -/
structure AnidbTitle where
  lang : String
  type : String
  text : String
deriving Repr, DecidableEq

/-- One of `ratings.permanent` / `ratings.temporary` (source fields
`_count`, `__text`). -/
structure AnidbRating where
  count : String
  text : String
deriving Repr, DecidableEq

/-- The `ratings` object; built only when at least one of the two is
present. -/
structure AnidbRatings where
  permanent : Option AnidbRating
  temporary : Option AnidbRating
deriving Repr, DecidableEq

/-- `AnidbAnimeData`: the normalized per-anime record that is cached and
converted to a search result. -/
structure AnidbAnimeData where
  id : String
  restricted : String
  type : Option String
  episodecount : Option String
  startdate : Option String
  enddate : Option String
  titles : Option (List AnidbTitle)
  picture : Option String
  ratings : Option AnidbRatings
deriving Repr, DecidableEq

/-- `AnidbError` (the single typed error class of the client; it carries
only a message). -/
structure AnidbError where
  message : String
deriving Repr, DecidableEq

/-! ## The parsed XML document

`DOMParser` is a browser API; its output document is modelled structurally
by the element shape that `extractAnimeData` queries. -/

/-- A `<title>` element under `<titles>`: the two language attributes, the
`type` attribute, and its text content. -/
structure XmlTitleEl where
  xmlLang : Option String
  lang : Option String
  type : Option String
  textContent : String
deriving Repr, DecidableEq

/-- A `<permanent>` / `<temporary>` rating element: `count` attribute and
text content. -/
structure XmlRatingEl where
  count : Option String
  textContent : String
deriving Repr, DecidableEq

/-- The `<picture>` element: `textContent` (sub-element text collapsed by
the DOM) and `innerHTML` (raw markup inside the element). -/
structure XmlPictureEl where
  textContent : String
  innerHTML : String
deriving Repr, DecidableEq

/-- The `<anime>` element with everything `extractAnimeData` reads off it:
attributes, the text content of the simple child elements (absent element
= `none`), the `<picture>` element, the `titles title` node list and the
two rating elements. -/
structure XmlAnimeEl where
  idAttr : Option String
  restrictedAttr : Option String
  typeText : Option String
  episodecountText : Option String
  startdateText : Option String
  enddateText : Option String
  pictureEl : Option XmlPictureEl
  titleEls : List XmlTitleEl
  permanentEl : Option XmlRatingEl
  temporaryEl : Option XmlRatingEl
deriving Repr, DecidableEq

/-- The parsed document: the optional `<anime>` element and the optional
`<error>` element's text content. -/
structure XmlDoc where
  animeEl : Option XmlAnimeEl
  errorText : Option String
deriving Repr, DecidableEq

/-- Fixed part of the banned-remediation message (everything after the
interpolated error text; lines 88–97). -/
def guidanceTail : String :=
  "\n可能的原因：\n1. 请求频率过高，IP 或客户端被临时封禁\n" ++
  "2. 客户端 ID 未正确注册或已被封禁\n3. 违反了 AniDB API 使用协议\n\n" ++
  "建议：\n1. 等待一段时间后重试（通常封禁是临时的）\n" ++
  "2. 检查客户端 ID 是否正确注册\n" ++
  "3. 确保遵守 API 频率限制（每 10 秒最多一次请求）\n" ++
  "4. 使用本地缓存的数据（如果可用）"

/-- Remediation message thrown for a banned-signalling `<error>` element in
`extractAnimeData` (lines 87–98). -/
def bannedGuidanceMessage (errorText : String) : String :=
  "AniDB API 封禁错误: " ++ (errorText ++ guidanceTail)

/-- Picture-text extraction inside `extractAnimeData` (lines 117–146):
`textContent`, falling back to tag-stripped `innerHTML` when blank, then
trim / collapse CR-LF runs / trim. -/
def extractPictureText (pe : XmlPictureEl) : Option String :=
  let pictureText := pe.textContent
  let pictureText :=
    if pictureText = "" ∨ jsTrim pictureText = "" then
      jsTrim (stripTags pe.innerHTML)
    else pictureText
  if pictureText = "" then none
  else some (jsTrim (collapseNewlines (jsTrim pictureText)))

/-- The `titles title` extraction loop (lines 161–174): language from
`xml:lang` falling back to `lang` falling back to `''`; entries with empty
text are skipped. -/
def extractTitles (els : List XmlTitleEl) : List AnidbTitle :=
  els.filterMap fun el =>
    let lang := jsOrStr el.xmlLang (jsOrStr el.lang "")
    let ttype := jsOrStr el.type ""
    let text := el.textContent
    if text = "" then none
    else some { lang := lang, type := ttype, text := text }

/-- `extractAnimeData(xmlDoc)` (lines 78–205): no `<anime>` element means
either a thrown `AnidbError` (when an `<error>` element is present, with
the remediation message when its text mentions "banned") or `null`;
otherwise the record is assembled field by field. -/
def extractAnimeData (doc : XmlDoc) : Except AnidbError (Option AnidbAnimeData) :=
  match doc.animeEl with
  | none =>
    match doc.errorText with
    | some t =>
      let errorText := if t = "" then "AniDB API 返回错误" else t
      if includesSub (jsToLower errorText) "banned" then
        .error ⟨bannedGuidanceMessage errorText⟩
      else
        .error ⟨errorText⟩
    | none => .ok none
  | some a =>
    let id := jsOrStr a.idAttr ""
    let restricted := jsOrStr a.restrictedAttr "false"
    let titles := extractTitles a.titleEls
    let ratings : Option AnidbRatings :=
      let permanent := a.permanentEl.map fun p =>
        ({ count := jsOrStr p.count "", text := p.textContent } : AnidbRating)
      let temporary := a.temporaryEl.map fun p =>
        ({ count := jsOrStr p.count "", text := p.textContent } : AnidbRating)
      if permanent.isSome ∨ temporary.isSome then
        some { permanent := permanent, temporary := temporary }
      else none
    .ok (some
      { id := id
        restricted := restricted
        type := undefinedIfEmpty a.typeText
        episodecount := undefinedIfEmpty a.episodecountText
        startdate := undefinedIfEmpty a.startdateText
        enddate := undefinedIfEmpty a.enddateText
        titles := if titles.isEmpty then none else some titles
        picture := match a.pictureEl with
          | some pe => extractPictureText pe
          | none => none
        ratings := ratings })

/-! ## Converting to the unified search-result shape -/

/-- `AnidbSearchResult` (from `types.ts`); the four image slots always
receive the same constructed URL.  `aid` and `episodecount` are `parseInt`
results with `NaN` as `none`; `score` carries the raw rating text selected
by the source (the float `parseFloat(text)/100` is not modelled). -/
structure AnidbSearchResult where
  id : String
  aid : Option Nat
  name : String
  name_cn : Option String
  date : Option String
  imagesSmall : String
  imagesGrid : String
  imagesLarge : String
  imagesMedium : String
  score : Option String
  type : Option String
  episodecount : Option Nat
deriving Repr, DecidableEq

/-- `imageId.split('/').pop() || imageId`: the last path component, with
the whole value kept when the pop result is empty. -/
def lastPathComponent (imageId : String) : String :=
  if includesSub imageId "/" then
    jsOrStr (jsSplit imageId "/").getLast? imageId
  else imageId

/-- The regex replace `.replace(/\.(jpg|jpeg|png|gif|webp)$/i, '')`: drop
one known image extension at the end, case-insensitively. -/
def stripImageExt (s : String) : String :=
  let exts := [".jpg", ".jpeg", ".png", ".gif", ".webp"]
  match exts.find? fun ext => jsEndsWith (jsToLower s) ext with
  | some ext => ⟨s.data.take (s.data.length - ext.length)⟩
  | none => s

/-- Strip-prefix then strip-extension steps of the image-id extraction. -/
def extractImageId (pictureValue : String) : String :=
  stripImageExt (lastPathComponent pictureValue)

/-- The picture-URL construction of `convertAnidbToSearchResult`
(lines 581–625).  Returns the URL together with the `console.warn` flag of
the non-numeric fallback branch (`true` exactly when the shape check
failed and the raw value was used verbatim). -/
def buildPictureUrl (picture : Option String) : String × Bool :=
  match picture with
  | none => ("", false)
  | some p =>
    if jsTrim p = "" then ("", false)
    else
      let pictureValue := jsTrim p
      if jsStartsWith pictureValue "http://" ∨ jsStartsWith pictureValue "https://" then
        (pictureValue, false)
      else
        let imageIdWithoutExt := extractImageId pictureValue
        if isAllDigits imageIdWithoutExt then
          ("https://cdn-eu.anidb.net/images/main/" ++ imageIdWithoutExt ++ ".jpg", false)
        else
          ("https://cdn-eu.anidb.net/images/main/" ++ pictureValue, true)

/-- `convertAnidbToSearchResult(anime)` (lines 562–656). -/
def convertAnidbToSearchResult (anime : AnidbAnimeData) : AnidbSearchResult :=
  let titles := anime.titles.getD []
  let mainTitle :=
    match titles.find? fun t => t.type = "main" with
    | some t => some t
    | none => titles.head?
  let chineseTitle := titles.find? fun t =>
    t.lang = "zh" ∨ t.lang = "zh-Hans" ∨ t.lang = "zh-Hant"
  let score : Option String :=
    match anime.ratings with
    | some r =>
      match r.permanent with
      | some p =>
        if p.text ≠ "" then some p.text
        else
          match r.temporary with
          | some t => if t.text ≠ "" then some t.text else none
          | none => none
      | none =>
        match r.temporary with
        | some t => if t.text ≠ "" then some t.text else none
        | none => none
    | none => none
  let pictureUrl := (buildPictureUrl anime.picture).1
  { id := "anidb_" ++ anime.id
    aid := parseIntJs anime.id
    name := jsOrStr (mainTitle.map (·.text)) ""
    name_cn := undefinedIfEmpty (chineseTitle.map (·.text))
    date := undefinedIfEmpty anime.startdate
    imagesSmall := pictureUrl
    imagesGrid := pictureUrl
    imagesLarge := pictureUrl
    imagesMedium := pictureUrl
    score := score
    type := anime.type
    episodecount :=
      match anime.episodecount with
      | some e => if e ≠ "" then parseIntJs e else none
      | none => none }

/-! ## The rate-limited client (`anidb.ts`, lines 264–405) -/

/-- `REQUEST_INTERVAL = 10000` (10 s). -/
def REQUEST_INTERVAL : Nat := 10000

/-- The fixed ordering delay awaited on a cache hit (line 300). -/
def CACHE_HIT_DELAY : Nat := 100

/-- The module-level mutable state together with the fake clock: the
persisted cache (`localStorage` under `anidb-api-cache`), the module
variable `lastRequestTime`, and the current `Date.now()`. -/
structure ClientState where
  cache : List (Nat × AnidbAnimeData)
  lastRequestTime : Nat
  now : Nat
deriving Repr, DecidableEq

/-- `saveToCache(aid, data)` (lines 230–259): load the stored map, set the
entry, write it back (the best-effort write succeeding). -/
def saveToCache (cache : List (Nat × AnidbAnimeData)) (aid : Nat)
    (data : AnidbAnimeData) : List (Nat × AnidbAnimeData) :=
  setNat cache aid data

/-- `waitForRequestInterval()` (lines 264–282) on the fake clock: if the
interval has elapsed, stamp `lastRequestTime := now` and proceed at once;
otherwise sleep exactly the remaining time and stamp `lastRequestTime`
with the wake-up instant. -/
def waitForRequestInterval (s : ClientState) : ClientState :=
  let timeSinceLastRequest := s.now - s.lastRequestTime
  if timeSinceLastRequest ≥ REQUEST_INTERVAL then
    { s with lastRequestTime := s.now }
  else
    let waitTime := REQUEST_INTERVAL - timeSinceLastRequest
    { s with now := s.now + waitTime, lastRequestTime := s.now + waitTime }

deriving instance DecidableEq for Except

/-- One network interaction as the environment resolves it: an HTTP
response that is not `ok` (status outside 2xx, with the `opaque` response
type flag), an `ok` response carrying the body text and the `DOMParser`
outcome on it (`Except.error ()` = a `parsererror` document), or a
rejected `fetch` promise carrying the exception message. -/
inductive NetResult where
  | httpError (status : Nat) (statusText : String) (opaqueType : Bool)
  | ok (xmlText : String) (doc : Except Unit XmlDoc)
  | reject (message : String)
deriving Repr, DecidableEq

/-- The network environment: per aid, the response latency and the
response. -/
def NetEnv := Nat → Nat × NetResult

/-- The browser `RequestInit` options that `getAnimeByAid` passes to
`fetch` (lines 319–324): the `Accept` header and the CORS mode.  `signal`
is the `RequestInit` slot where an `AbortSignal` (the only browser timeout
mechanism for `fetch`) would be attached, with its timeout in
milliseconds; the source sets no such option. -/
structure FetchRequestInit where
  acceptHeader : String
  mode : String
  signal : Option Nat
deriving Repr, DecidableEq

/-- The options object of the `fetch` call in `getAnimeByAid`. -/
def anidbFetchOptions : FetchRequestInit :=
  { acceptHeader := "application/xml, text/xml, */*"
    mode := "cors"
    signal := none }

/-- The request URL built in `getAnimeByAid` (lines 310–315;
`URLSearchParams` keeps insertion order). -/
def anidbRequestUrl (aid : Nat) : String :=
  "http://api.anidb.net:9001/httpapi?request=anime&client=tier&clientver=1&protover=1&aid="
    ++ toString aid

/-- The regex match `xmlText.match(/<error[^>]*>(.*?)<\/error>/)` at the
first occurrence of `<error`: skip to the first `>` after it, then capture
lazily up to the first `</error>`; the capture must not span a line break
(`.` does not match CR/LF).  On inputs whose first `<error` occurrence
fails these conditions the JS engine would retry at later occurrences;
every theorem below evaluates this only where the first occurrence
decides the match. -/
def errorTagMatch (xmlText : String) : Option String :=
  match splitFirst "<error".data xmlText.data with
  | none => none
  | some (_, afterOpen) =>
    match dropToGt afterOpen with
    | none => none
    | some afterGt =>
      match splitFirst "</error>".data afterGt with
      | none => none
      | some (content, _) =>
        if content.any fun c => c = '\r' ∨ c = '\n' then none
        else some ⟨content⟩

/-- The CORS message thrown for a blocked response (lines 328–333). -/
def corsBlockedMessage : String :=
  "CORS 错误：AniDB API 使用 HTTP 协议，浏览器可能阻止了请求。\n" ++
  "建议：1) 使用其他 API 源（Bangumi/VNDB）进行搜索；\n" ++
  "      2) 配置 CORS 代理服务器；\n" ++
  "      3) 使用 AniDB UDP API（需要服务器端支持）。"

/-- The CORS message produced in the catch-all branch (lines 396–401). -/
def corsConnectMessage : String :=
  "无法连接到 AniDB API。这可能是因为：\n" ++
  "1. AniDB API 使用 HTTP 协议，浏览器安全策略可能阻止了请求\n" ++
  "2. 需要配置 CORS 代理或使用服务器端 API\n" ++
  "建议使用 Bangumi 或 VNDB API 进行搜索。"

/-- Result of one `getAnimeByAid` call: the settled promise (a record,
`null`, or a thrown `AnidbError`), the post state, and the send instants
of the network requests issued during the call. -/
structure FetchOutcome where
  result : Except AnidbError (Option AnidbAnimeData)
  state : ClientState
  sends : List Nat
deriving Repr, DecidableEq

/-- The parse stage of `getAnimeByAid` on the body text (lines 354–363):
the raw-text `<error>` pre-check (which throws the generic message when
its regex matches, and otherwise falls through), then `parseXML`, then
`extractAnimeData`. -/
def parseStage (xmlText : String) (doc : Except Unit XmlDoc) :
    Except AnidbError (Option AnidbAnimeData) :=
  if includesSub xmlText "<error>" then
    match errorTagMatch xmlText with
    | some m => Except.error (⟨"AniDB API 错误: " ++ m⟩ : AnidbError)
    | none =>
      match doc with
      | .error _ => .error ⟨"XML 解析失败"⟩
      | .ok d => extractAnimeData d
  else
    match doc with
    | .error _ => .error ⟨"XML 解析失败"⟩
    | .ok d => extractAnimeData d

/-- The response-processing part of `getAnimeByAid` after the body text is
available (lines 338–389): the parse stage and the cache write on
success. -/
def processResponse (aid : Nat) (xmlText : String) (doc : Except Unit XmlDoc)
    (s : ClientState) (sendTime : Nat) : FetchOutcome :=
  match parseStage xmlText doc with
  | .error e => ⟨.error e, s, [sendTime]⟩
  | .ok none => ⟨.ok none, s, [sendTime]⟩
  | .ok (some animeData) =>
    ⟨.ok (some animeData),
      { s with cache := saveToCache s.cache aid animeData }, [sendTime]⟩

/-- `getAnimeByAid(aid)` (lines 288–405): cache check with the fixed
ordering delay on a hit; otherwise wait for the rate-limit window, stamp
`lastRequestTime`, issue the one network request and process its
response.  Every branch settles with a record, `null`, or an
`AnidbError` — the `catch` wraps any non-`AnidbError` exception. -/
def getAnimeByAid (env : NetEnv) (aid : Nat) (s : ClientState) : FetchOutcome :=
  match lookupNat s.cache aid with
  | some cachedData =>
    ⟨.ok (some cachedData), { s with now := s.now + CACHE_HIT_DELAY }, []⟩
  | none =>
    let s := waitForRequestInterval s
    let sendTime := s.lastRequestTime
    let (latency, resp) := env aid
    let s := { s with now := s.now + latency }
    match resp with
    | .httpError status statusText opaqueType =>
      if status = 0 ∨ opaqueType then
        ⟨.error ⟨corsBlockedMessage⟩, s, [sendTime]⟩
      else
        ⟨.error ⟨"请求失败: " ++ toString status ++ " " ++ statusText⟩, s, [sendTime]⟩
    | .reject message =>
      if includesSub message "CORS" ∨ includesSub message "fetch" then
        ⟨.error ⟨corsConnectMessage⟩, s, [sendTime]⟩
      else
        ⟨.error ⟨"网络错误: " ++ message⟩, s, [sendTime]⟩
    | .ok xmlText doc => processResponse aid xmlText doc s sendTime

/-! ## The search orchestration (`searchAnidbAnime`, lines 421–557) -/

/-- Candidate-aid selection (lines 434–446): a keyword that is all digits
after trimming is parsed as a direct AID; the parsed value then passes
through JS truthiness (`if (directAid)`), so the number `0` is falsy and
falls through to the local title index. -/
def candidateAids (load : LoadOutcome) (keyword : String) (page results : Nat) : List Nat :=
  let keywordTrimmed := jsTrim keyword
  let directAid : Option Nat :=
    if isAllDigits keywordTrimmed then parseIntJs keywordTrimmed else none
  match directAid with
  | some a =>
    if a ≠ 0 then [a]
    else searchAnimeTitles load keyword (results * page)
  | none => searchAnimeTitles load keyword (results * page)

/-- The loop body for one aid (lines 465–539): on a record, merge the
local-index titles into the converted result and emit it; on `null`, emit
nothing; on a thrown error, fall back to an entry built from the local
titles when any exist, else emit nothing. -/
def searchStep (env : NetEnv) (load : LoadOutcome) (aid : Nat)
    (s : ClientState) : Option AnidbSearchResult × ClientState × List Nat :=
  let fo := getAnimeByAid env aid s
  match fo.result with
  | .ok (some animeData) =>
    let dataMain :=
      ((animeData.titles.getD []).find? fun t => t.type = "main").map (·.text)
    let mainTitle := jsOrStr (getMainTitle load aid) (jsOrStr dataMain "")
    let dataZh :=
      ((animeData.titles.getD []).find? fun t =>
        t.lang = "zh" ∨ t.lang = "zh-Hans" ∨ t.lang = "zh-Hant").map (·.text)
    let chineseTitle :=
      match undefinedIfEmpty (getChineseTitle load aid) with
      | some c => some c
      | none => undefinedIfEmpty dataZh
    let result := convertAnidbToSearchResult animeData
    let result :=
      { result with
          name := if mainTitle = "" then result.name else mainTitle
          name_cn :=
            match chineseTitle with
            | some c => some c
            | none => result.name_cn }
    (some result, fo.state, fo.sends)
  | .ok none => (none, fo.state, fo.sends)
  | .error _ =>
    let titles := getAnimeTitles load aid
    if titles.isEmpty then (none, fo.state, fo.sends)
    else
      let mainTitle :=
        jsOrStr ((titles.find? fun t => t.type = 1).map (·.title))
          (jsOrStr (titles.head?.map (·.title)) "")
      let chineseTitle :=
        undefinedIfEmpty ((titles.find? fun t =>
          t.lang = "zh" ∨ t.lang = "zh-Hans" ∨ t.lang = "zh-Hant").map (·.title))
      (some
        { id := "anidb_" ++ toString aid
          aid := some aid
          name := mainTitle
          name_cn := chineseTitle
          date := none
          imagesSmall := ""
          imagesGrid := ""
          imagesLarge := ""
          imagesMedium := ""
          score := none
          type := none
          episodecount := none }, fo.state, fo.sends)

/-- The sequential per-page loop of `searchAnidbAnime` (lines 460–539):
results are pushed onto the accumulator strictly in aid order; the send
instants of every iteration are collected. -/
def searchAnidbAnimeLoop (env : NetEnv) (load : LoadOutcome) :
    List Nat → ClientState → List AnidbSearchResult →
    List AnidbSearchResult × ClientState × List Nat
  | [], s, acc => (acc, s, [])
  | aid :: rest, s, acc =>
    let step := searchStep env load aid s
    let tail := searchAnidbAnimeLoop env load rest step.2.1 (acc ++ step.1.toList)
    (tail.1, tail.2.1, step.2.2 ++ tail.2.2)

/-- Specification companion of the loop: the per-aid entries, one `Option`
slot per input aid, in input order, under the same state evolution. -/
def loopEntries (env : NetEnv) (load : LoadOutcome) :
    List Nat → ClientState → List (Option AnidbSearchResult)
  | [], _ => []
  | aid :: rest, s =>
    let step := searchStep env load aid s
    step.1 :: loopEntries env load rest step.2.1

/-- `AnidbSearchResponse`. -/
structure AnidbSearchResponse where
  results : List AnidbSearchResult
  more : Bool
deriving Repr, DecidableEq

/-- `searchAnidbAnime(keyword, page, results)` (lines 421–557): empty
keyword short-circuits; candidate selection, pagination slice, then the
sequential loop. -/
def searchAnidbAnime (env : NetEnv) (load : LoadOutcome) (keyword : String)
    (page : Nat := 1) (results : Nat := 20) (s : ClientState) :
    AnidbSearchResponse × ClientState :=
  if jsTrim keyword = "" then (⟨[], false⟩, s)
  else
    let matchedAids := candidateAids load keyword page results
    if matchedAids.isEmpty then (⟨[], false⟩, s)
    else
      let startIndex := (page - 1) * results
      let endIndex := startIndex + results
      let pageAids := (matchedAids.drop startIndex).take results
      let hasMore := matchedAids.length > endIndex
      let (searchResults, s', _) := searchAnidbAnimeLoop env load pageAids s []
      (⟨searchResults, hasMore⟩, s')

/-! ## Concrete fixtures and specification predicates -/

/-- Does the network response parse to a document with neither an
`<anime>` nor an `<error>` element (the shape on which `getAnimeByAid`
settles with `null`)? -/
def isNullishResponse : NetResult → Bool
  | .ok _ (.ok d) => d.animeEl.isNone && d.errorText.isNone
  | _ => false

/-- Fresh client state: empty cache, zero stamp, clock at zero. -/
def emptyClientState : ClientState := ⟨[], 0, 0⟩

/-- A tiny title index: one anime (aid 5) whose only title is "100". -/
def titleIndexFixture : AnimeTitleIndex :=
  ⟨[(5, [⟨5, 1, "en", "100"⟩])], [("100", [5])]⟩

/-- A network that answers every aid with a well-formed but empty
document: no `<anime>`, no `<error>`. -/
def nullResponseEnv : NetEnv := fun _ => (0, .ok "<foo/>" (.ok ⟨none, none⟩))

/-- A network that answers with the plain banned error
`<error>banned</error>` (no attributes on the tag). -/
def bannedPlainEnv : NetEnv :=
  fun _ => (0, .ok "<error>banned</error>" (.ok ⟨none, some "banned"⟩))

/-- A network that answers with a banned error whose `<error>` tag carries
an attribute, so the raw text does not contain the literal `"<error>"`. -/
def bannedAttrEnv : NetEnv :=
  fun _ => (0, .ok "<error code=1>banned</error>" (.ok ⟨none, some "banned"⟩))

/-- A successful anime document: id 42, one main title "T". -/
def okAnimeDoc : XmlDoc :=
  ⟨some ⟨some "42", none, none, none, none, none, none,
    [⟨some "en", none, some "main", "T"⟩], none, none⟩, none⟩

/-- A network that answers every aid with `okAnimeDoc` after 50 ms. -/
def okAnimeEnv : NetEnv := fun _ => (50, .ok "<anime id=42/>" (.ok okAnimeDoc))

/-- The record `extractAnimeData` produces from `okAnimeDoc`. -/
def okAnimeData : AnidbAnimeData :=
  ⟨"42", "false", none, none, none, none, some [⟨"en", "main", "T"⟩], none, none⟩

/-- A network whose fetch promise rejects. -/
def rejectEnv : NetEnv := fun _ => (0, .reject "boom")

/-- An anime record carrying no titles at all. -/
def noTitlesAnime : AnidbAnimeData :=
  ⟨"123", "false", none, none, none, none, none, none, none⟩

/-- A main title entry. -/
def mainTitleFixture : AnidbTitle := ⟨"en", "main", "T"⟩

/-- An anime record with one main title. -/
def titledAnime : AnidbAnimeData :=
  ⟨"123", "false", none, none, none, none, some [mainTitleFixture], none, none⟩

/-- A typical numeric picture file reference. -/
def pictureFixtureValue : String := "295082.jpg"

/-! ## Shared lemmas -/

/-- Lookup after `set` at the same key. -/
theorem lookupNat_setNat_self {α : Type} (c : List (Nat × α)) (k : Nat) (v : α) :
    lookupNat (setNat c k v) k = some v := by
  induction c with
  | nil => simp [setNat, lookupNat]
  | cons hd tl ih =>
    obtain ⟨k', v'⟩ := hd
    by_cases h : k' = k
    · simp [setNat, lookupNat, h]
    · simp [setNat, lookupNat, h, ih]

/-- A substring of the right part of an append is a substring of the
whole. -/
theorem listContainsSub_append_right (pat l₁ l₂ : List Char)
    (h : listContainsSub pat l₂ = true) :
    listContainsSub pat (l₁ ++ l₂) = true := by
  induction l₁ with
  | nil => simpa using h
  | cons c cs ih =>
    simp only [List.cons_append, listContainsSub, Bool.or_eq_true]
    exact Or.inr ih

/-- A cache hit: `getAnimeByAid` returns the cached record at once (after
the fixed ordering delay), touching neither the network nor
`lastRequestTime`. -/
theorem getAnimeByAid_cacheHit (env : NetEnv) (aid : Nat) (s : ClientState)
    (d : AnidbAnimeData) (h : lookupNat s.cache aid = some d) :
    getAnimeByAid env aid s =
      ⟨.ok (some d), { s with now := s.now + CACHE_HIT_DELAY }, []⟩ := by
  simp [getAnimeByAid, h]

/-- `waitForRequestInterval` stamps `lastRequestTime` with the send
instant: at least one full interval after the previous stamp, and equal to
the (possibly advanced) clock. -/
theorem waitForRequestInterval_spec (s : ClientState)
    (h : s.lastRequestTime ≤ s.now) :
    (waitForRequestInterval s).cache = s.cache ∧
    (waitForRequestInterval s).lastRequestTime = (waitForRequestInterval s).now ∧
    s.lastRequestTime + REQUEST_INTERVAL ≤ (waitForRequestInterval s).lastRequestTime ∧
    s.now ≤ (waitForRequestInterval s).now := by
  by_cases hge : s.now - s.lastRequestTime ≥ REQUEST_INTERVAL <;>
    [simp only [waitForRequestInterval, hge, if_true];
     simp only [waitForRequestInterval, hge, if_false]] <;>
    simp only [REQUEST_INTERVAL] at hge ⊢ <;>
    exact ⟨by trivial, by trivial, by omega, by omega⟩

/-- `processResponse` never touches the clock or the stamp, and reports
exactly the one send it was given. -/
theorem processResponse_state (aid : Nat) (xmlText : String)
    (doc : Except Unit XmlDoc) (s : ClientState) (t : Nat) :
    (processResponse aid xmlText doc s t).state.lastRequestTime = s.lastRequestTime ∧
    (processResponse aid xmlText doc s t).state.now = s.now ∧
    (processResponse aid xmlText doc s t).sends = [t] := by
  unfold processResponse
  cases hp : parseStage xmlText doc with
  | error e => simp [hp]
  | ok d => cases d <;> simp [hp]

/-- Shape of the cache-miss branch of `getAnimeByAid`: whatever the
network does, the call sends exactly one request, stamped and timed by
`waitForRequestInterval`, and only the result and the cache distinguish
the outcomes. -/
theorem getAnimeByAid_miss (env : NetEnv) (aid : Nat) (s : ClientState)
    (h : lookupNat s.cache aid = none) :
    ∃ (r : Except AnidbError (Option AnidbAnimeData)) (c : List (Nat × AnidbAnimeData)),
      getAnimeByAid env aid s =
        ⟨r, ⟨c, (waitForRequestInterval s).lastRequestTime,
              (waitForRequestInterval s).now + (env aid).1⟩,
          [(waitForRequestInterval s).lastRequestTime]⟩ := by
  simp only [getAnimeByAid, h]
  rcases henv : env aid with ⟨latency, resp⟩
  simp only [henv]
  cases resp with
  | httpError status statusText opaqueType =>
    by_cases hcond : status = 0 ∨ opaqueType = true
    · simp only [hcond, if_true]; exact ⟨_, _, rfl⟩
    · simp only [hcond, if_false]; exact ⟨_, _, rfl⟩
  | reject message =>
    by_cases hcond : includesSub message "CORS" = true ∨ includesSub message "fetch" = true
    · simp only [hcond, if_true]; exact ⟨_, _, rfl⟩
    · simp only [hcond, if_false]; exact ⟨_, _, rfl⟩
  | ok xmlText doc =>
    unfold processResponse
    cases hp : parseStage xmlText doc with
    | error e => simp only [hp]; exact ⟨_, _, rfl⟩
    | ok d =>
      cases d <;> simp only [hp] <;> exact ⟨_, _, rfl⟩

/-- Send accounting for one `getAnimeByAid` call: either no request was
sent and the stamp is untouched (the cache-hit path), or exactly one
request was sent, its instant is the new stamp, and it is at least one
full interval after the previous stamp.  The stamp never runs ahead of
the clock. -/
theorem getAnimeByAid_sends_spec (env : NetEnv) (aid : Nat) (s : ClientState)
    (h : s.lastRequestTime ≤ s.now) :
    (getAnimeByAid env aid s).state.lastRequestTime ≤ (getAnimeByAid env aid s).state.now ∧
    (((getAnimeByAid env aid s).sends = [] ∧
        (getAnimeByAid env aid s).state.lastRequestTime = s.lastRequestTime) ∨
      (∃ t, (getAnimeByAid env aid s).sends = [t] ∧
        (getAnimeByAid env aid s).state.lastRequestTime = t ∧
        s.lastRequestTime + REQUEST_INTERVAL ≤ t)) := by
  cases hc : lookupNat s.cache aid with
  | some d =>
    rw [getAnimeByAid_cacheHit env aid s d hc]
    simp
    omega
  | none =>
    obtain ⟨hcache, hstamp, hgap, hclock⟩ := waitForRequestInterval_spec s h
    obtain ⟨r, c, heq⟩ := getAnimeByAid_miss env aid s hc
    rw [heq]
    exact ⟨by simp only; omega,
      Or.inr ⟨(waitForRequestInterval s).lastRequestTime, rfl, rfl, hgap⟩⟩

/-- `searchStep` passes through the state and sends of its
`getAnimeByAid` call unchanged. -/
theorem searchStep_state_sends (env : NetEnv) (load : LoadOutcome)
    (aid : Nat) (s : ClientState) :
    (searchStep env load aid s).2.1 = (getAnimeByAid env aid s).state ∧
    (searchStep env load aid s).2.2 = (getAnimeByAid env aid s).sends := by
  unfold searchStep
  cases hr : (getAnimeByAid env aid s).result with
  | ok d => cases d <;> simp [hr]
  | error e =>
    simp only [hr]
    split <;> simp

/-- Send accounting across the sequential loop: consecutive send instants
are at least one full interval apart, and every send lies at least one
interval after the stamp the loop started from. -/
theorem searchAnidbAnimeLoop_sends (env : NetEnv) (load : LoadOutcome)
    (aids : List Nat) (s : ClientState) (acc : List AnidbSearchResult)
    (h : s.lastRequestTime ≤ s.now) :
    List.Chain' (fun a b => a + REQUEST_INTERVAL ≤ b)
      (searchAnidbAnimeLoop env load aids s acc).2.2 ∧
    ∀ t ∈ (searchAnidbAnimeLoop env load aids s acc).2.2,
      s.lastRequestTime + REQUEST_INTERVAL ≤ t := by
  induction aids generalizing s acc with
  | nil => simp [searchAnidbAnimeLoop]
  | cons aid rest ih =>
    obtain ⟨hst, hsd⟩ := searchStep_state_sends env load aid s
    obtain ⟨hle, hcase⟩ := getAnimeByAid_sends_spec env aid s h
    have h' : (searchStep env load aid s).2.1.lastRequestTime ≤
        (searchStep env load aid s).2.1.now := by rw [hst]; exact hle
    obtain ⟨ih1, ih2⟩ := ih (searchStep env load aid s).2.1
      (acc ++ (searchStep env load aid s).1.toList) h'
    simp only [searchAnidbAnimeLoop]
    rcases hcase with ⟨hnil, hsame⟩ | ⟨t, hone, hlast, hgap⟩
    · rw [hsd, hnil]
      simp only [List.nil_append]
      refine ⟨ih1, fun t' ht' => ?_⟩
      have := ih2 t' ht'
      rw [hst, hsame] at this
      exact this
    · rw [hsd, hone]
      have hbound : ∀ t' ∈ (searchAnidbAnimeLoop env load rest
          (searchStep env load aid s).2.1
          (acc ++ (searchStep env load aid s).1.toList)).2.2, t + REQUEST_INTERVAL ≤ t' := by
        intro t' ht'
        have := ih2 t' ht'
        rw [hst, hlast] at this
        exact this
      constructor
      · refine List.chain'_cons'.mpr ⟨fun b hb => ?_, ih1⟩
        exact hbound b (List.mem_of_mem_head? hb)
      · intro t' ht'
        rcases List.mem_cons.mp ht' with rfl | ht'
        · exact hgap
        · have := hbound t' ht'
          omega

/-- String append acts as list append on the underlying characters. -/
theorem data_append (a b : String) : (a ++ b).data = a.data ++ b.data := rfl

/-! ## Claim C1 -/

/-- Claim C1, as stated, is false: with a batch of one identifier whose
fetch succeeds but carries a document with neither an anime nor an error
element, `getAnimeByAid` resolves with `null` and the loop appends
nothing, so the single identifier yields zero entries in the result, not
exactly one entry. -/
theorem claim1_counterexample :
    (searchAnidbAnimeLoop nullResponseEnv (Except.ok titleIndexFixture) [7]
      emptyClientState []).1 = [] ∧
    ¬((searchAnidbAnimeLoop nullResponseEnv (Except.ok titleIndexFixture) [7]
      emptyClientState []).1.length = [7].length) := by
  constructor
  · decide
  · decide

/-- Claim C1 (amended): the per-page loop of `searchAnidbAnime` processes
every identifier of the input list, in input order, appending the entries
to the accumulator — each identifier contributes at most one entry (its
`Option` slot in `loopEntries`), and a failure for one identifier does
not abort the batch: there is one slot per identifier, so every later
identifier is still processed.  (The original claim's "exactly one entry
per identifier" is refuted by `claim1_counterexample`: a null fetch, or a
failed fetch with no local-title fallback, contributes no entry.) -/
theorem claim1_theorem (env : NetEnv) (load : LoadOutcome)
    (aids : List Nat) (s : ClientState) (acc : List AnidbSearchResult) :
    (searchAnidbAnimeLoop env load aids s acc).1 =
      acc ++ (loopEntries env load aids s).reduceOption ∧
    (loopEntries env load aids s).length = aids.length := by
  induction aids generalizing s acc with
  | nil => simp [searchAnidbAnimeLoop, loopEntries]
  | cons aid rest ih =>
    obtain ⟨ih1, ih2⟩ := ih (searchStep env load aid s).2.1
      (acc ++ (searchStep env load aid s).1.toList)
    simp only [searchAnidbAnimeLoop, loopEntries]
    constructor
    · rw [ih1]
      cases hstep : (searchStep env load aid s).1 <;>
        simp [hstep, List.reduceOption_cons_of_some, List.reduceOption_cons_of_none]
    · simp [ih2]

/-! ## Claim C2 -/

/-- Claim C2: the configured minimum interval is 10 seconds, and across
any run of the sequential loop — whatever mix of cached and uncached
identifiers and whatever the network does — consecutive network sends are
at least one full `REQUEST_INTERVAL` apart; a cache hit performs no send
and leaves the rate-limit stamp untouched (it does not consume the
budget). -/
theorem claim2_theorem (env : NetEnv) (load : LoadOutcome) (aids : List Nat)
    (s : ClientState) (acc : List AnidbSearchResult)
    (h : s.lastRequestTime ≤ s.now) :
    REQUEST_INTERVAL = 10000 ∧
    List.Chain' (fun a b => a + REQUEST_INTERVAL ≤ b)
      (searchAnidbAnimeLoop env load aids s acc).2.2 ∧
    ∀ aid d, lookupNat s.cache aid = some d →
      (getAnimeByAid env aid s).sends = [] ∧
      (getAnimeByAid env aid s).state.lastRequestTime = s.lastRequestTime := by
  refine ⟨rfl, (searchAnidbAnimeLoop_sends env load aids s acc h).1, ?_⟩
  intro aid d hd
  rw [getAnimeByAid_cacheHit env aid s d hd]
  exact ⟨rfl, rfl⟩

/-- Claim C2 witness: a concrete run over `[1, 2, 1]` from a fresh state
(two cache misses, then a hit on the now-cached first identifier); the
recorded send instants satisfy the chained spacing bound. -/
theorem claim2_witness :
    emptyClientState.lastRequestTime ≤ emptyClientState.now ∧
    List.Chain' (fun a b => a + REQUEST_INTERVAL ≤ b)
      (searchAnidbAnimeLoop okAnimeEnv (Except.ok titleIndexFixture) [1, 2, 1]
        emptyClientState []).2.2 :=
  ⟨by decide,
    (claim2_theorem okAnimeEnv (Except.ok titleIndexFixture) [1, 2, 1]
      emptyClientState [] (by decide)).2.1⟩

/-! ## Claim C3 -/

/-- Claim C3: when a `getAnimeByAid` call resolves with a record, that
record is in the cache afterwards, and any later call for the same
identifier — under any network environment — returns the identical cached
record and issues no network request at all. -/
theorem claim3_theorem (env envLater : NetEnv) (aid : Nat) (s : ClientState)
    (d : AnidbAnimeData)
    (h : (getAnimeByAid env aid s).result = .ok (some d)) :
    lookupNat (getAnimeByAid env aid s).state.cache aid = some d ∧
    (getAnimeByAid envLater aid (getAnimeByAid env aid s).state).result =
      .ok (some d) ∧
    (getAnimeByAid envLater aid (getAnimeByAid env aid s).state).sends = [] := by
  have hcache : lookupNat (getAnimeByAid env aid s).state.cache aid = some d := by
    cases hc : lookupNat s.cache aid with
    | some cd =>
      rw [getAnimeByAid_cacheHit env aid s cd hc] at h ⊢
      simp at h
      simpa [h] using hc
    | none =>
      simp only [getAnimeByAid, hc] at h ⊢
      rcases henv : env aid with ⟨latency, resp⟩
      simp only [henv] at h ⊢
      cases resp with
      | httpError status statusText opaqueType =>
        by_cases hcond : status = 0 ∨ opaqueType = true <;> simp [hcond] at h
      | reject message =>
        by_cases hcond :
            includesSub message "CORS" = true ∨ includesSub message "fetch" = true <;>
          simp [hcond] at h
      | ok xmlText doc =>
        unfold processResponse at h ⊢
        cases hp : parseStage xmlText doc with
        | error e => simp [hp] at h
        | ok od =>
          cases od with
          | none => simp [hp] at h
          | some a =>
            simp only [hp] at h ⊢
            simp at h
            subst h
            simp [saveToCache, lookupNat_setNat_self]
  rw [getAnimeByAid_cacheHit envLater aid _ d hcache]
  exact ⟨hcache, rfl, rfl⟩

/-- Claim C3 witness: after fetching identifier 1 from a fresh state over
a successful network, the record is cached and a second call returns the
same record with no send. -/
theorem claim3_witness :
    lookupNat (getAnimeByAid okAnimeEnv 1 emptyClientState).state.cache 1 =
      some okAnimeData ∧
    (getAnimeByAid okAnimeEnv 1
      (getAnimeByAid okAnimeEnv 1 emptyClientState).state).result =
      .ok (some okAnimeData) ∧
    (getAnimeByAid okAnimeEnv 1
      (getAnimeByAid okAnimeEnv 1 emptyClientState).state).sends = [] :=
  claim3_theorem okAnimeEnv okAnimeEnv 1 emptyClientState okAnimeData (by decide)

/-! ## Claim C4 -/

/-- Claim C4, as stated, is false: `getAnimeByAid` has a third outcome
beyond record and typed failure.  On a response whose document has
neither an anime nor an error element the call settles with `null` —
neither a record nor an `AnidbError`. -/
theorem claim4_counterexample :
    ¬((∃ d, (getAnimeByAid nullResponseEnv 7 emptyClientState).result =
        .ok (some d)) ∨
      (∃ e, (getAnimeByAid nullResponseEnv 7 emptyClientState).result =
        .error e)) := by
  have hres : (getAnimeByAid nullResponseEnv 7 emptyClientState).result =
      .ok none := by decide
  rintro (⟨d, hd⟩ | ⟨e, he⟩)
  · rw [hres] at hd
    exact Option.noConfusion (Except.ok.inj hd)
  · rw [hres] at he
    exact Except.noConfusion he

/-- Claim C4 (amended): a `getAnimeByAid` call settles with exactly one of
three outcomes — a record, `null`, or a thrown `AnidbError` (a single
error class with a message; there are no distinct NotFound / Banned /
Network / Malformed kinds in the code, only message texts); it never
throws anything else.  The `null` outcome arises exactly from a cache
miss whose response parses to a document with neither an anime nor an
error element. -/
theorem claim4_theorem (env : NetEnv) (aid : Nat) (s : ClientState)
    (h : (getAnimeByAid env aid s).result = .ok none) :
    lookupNat s.cache aid = none ∧
    isNullishResponse (env aid).2 = true := by
  cases hc : lookupNat s.cache aid with
  | some cd =>
    rw [getAnimeByAid_cacheHit env aid s cd hc] at h
    simp at h
  | none =>
    refine ⟨rfl, ?_⟩
    simp only [getAnimeByAid, hc] at h
    rcases henv : env aid with ⟨latency, resp⟩
    simp only [henv] at h ⊢
    cases resp with
    | httpError status statusText opaqueType =>
      by_cases hcond : status = 0 ∨ opaqueType = true <;> simp [hcond] at h
    | reject message =>
      by_cases hcond :
          includesSub message "CORS" = true ∨ includesSub message "fetch" = true <;>
        simp [hcond] at h
    | ok xmlText doc =>
      unfold processResponse at h
      cases hp : parseStage xmlText doc with
      | error e => simp [hp] at h
      | ok od =>
        cases od with
        | some a => simp [hp] at h
        | none =>
          cases doc with
          | error u =>
            exfalso
            unfold parseStage at hp
            by_cases hinc : includesSub xmlText "<error>" = true
            · simp only [hinc, if_true] at hp
              cases hm : errorTagMatch xmlText <;> simp [hm] at hp
            · simp [hinc] at hp
          | ok d =>
            have hext : extractAnimeData d = .ok none := by
              unfold parseStage at hp
              by_cases hinc : includesSub xmlText "<error>" = true
              · simp only [hinc, if_true] at hp
                cases hm : errorTagMatch xmlText <;> simp [hm] at hp
                exact hp
              · simpa [hinc] using hp
            unfold extractAnimeData at hext
            cases ha : d.animeEl with
            | some a => simp [ha] at hext
            | none =>
              cases he : d.errorText with
              | some t =>
                simp only [ha, he] at hext
                split at hext <;> (try split at hext) <;>
                  exact Except.noConfusion hext
              | none => simp [isNullishResponse, ha, he]

/-- Claim C4 witness: the concrete null outcome — fresh state, response
with neither anime nor error — and its characterization. -/
theorem claim4_witness :
    lookupNat emptyClientState.cache 7 = none ∧
    isNullishResponse (nullResponseEnv 7).2 = true :=
  claim4_theorem nullResponseEnv 7 emptyClientState (by decide)

/-! ## Claim C5 -/

/-- Claim C5, as stated, is false: the normalizer is total and produces no
`Malformed` failure for missing required fields.  A response whose anime
record carries no title at all converts to a search result whose primary
title (`name`) is the empty string — not a failure. -/
theorem claim5_counterexample :
    (convertAnidbToSearchResult noTitlesAnime).name = "" := by decide

/-- Claim C5 (amended): `convertAnidbToSearchResult` always yields a
record, never a Malformed failure; the `id` is always non-empty (the
source prefixes `anidb_`), a record with no titles yields an empty
`name` rather than failing, and when a main-type title with non-empty
text exists it becomes the `name` (so a well-formed response yields
non-empty `id` and `name`).  The only Malformed-like failure of the
pipeline is the `AnidbError` thrown upstream for unparseable XML, not a
missing-field check. -/
theorem claim5_theorem (a : AnidbAnimeData) :
    (convertAnidbToSearchResult a).id ≠ "" ∧
    (a.titles = none → (convertAnidbToSearchResult a).name = "") ∧
    ∀ ts t, a.titles = some ts →
      ts.find? (fun x => x.type = "main") = some t → t.text ≠ "" →
      (convertAnidbToSearchResult a).name = t.text := by
  refine ⟨?_, ?_, ?_⟩
  · intro hh
    have hd := congrArg String.data hh
    rw [show (convertAnidbToSearchResult a).id = "anidb_" ++ a.id from rfl,
      data_append] at hd
    exact List.noConfusion hd
  · intro h
    simp [convertAnidbToSearchResult, h, jsOrStr]
  · intro ts t hts hf htext
    simp [convertAnidbToSearchResult, hts, hf, jsOrStr, htext]

/-- Claim C5 witness: a record with one non-empty main title converts to
a result whose name is that title. -/
theorem claim5_witness :
    (convertAnidbToSearchResult titledAnime).name = "T" :=
  (claim5_theorem titledAnime).2.2 [mainTitleFixture] mainTitleFixture rfl
    (by decide) (by decide)

/-! ## Claim C6 -/

/-- Claim C6: picture handling in the normalizer.  An absent or blank
picture value yields the explicit empty string (no URL is fabricated).  A
non-URL file reference is reduced by stripping the path prefix and any
known image extension; when the remainder is purely numeric (and
non-empty) the CDN URL is built from it; otherwise the raw trimmed value
is used verbatim inside the constructed CDN reference and the fallback is
flagged (the source's `console.warn`, surfaced as the Boolean). -/
theorem claim6_theorem (v : String) :
    buildPictureUrl none = ("", false) ∧
    (jsTrim v = "" → buildPictureUrl (some v) = ("", false)) ∧
    (jsTrim v ≠ "" →
      jsStartsWith (jsTrim v) "http://" = false →
      jsStartsWith (jsTrim v) "https://" = false →
      (isAllDigits (extractImageId (jsTrim v)) = true →
        buildPictureUrl (some v) =
          ("https://cdn-eu.anidb.net/images/main/" ++ extractImageId (jsTrim v)
            ++ ".jpg", false) ∧
        (extractImageId (jsTrim v)).data.all Char.isDigit = true ∧
        (extractImageId (jsTrim v)).data ≠ []) ∧
      (isAllDigits (extractImageId (jsTrim v)) = false →
        buildPictureUrl (some v) =
          ("https://cdn-eu.anidb.net/images/main/" ++ jsTrim v, true))) := by
  refine ⟨rfl, ?_, ?_⟩
  · intro h
    simp [buildPictureUrl, h]
  · intro h h1 h2
    constructor
    · intro hdig
      refine ⟨?_, ?_, ?_⟩
      · simp [buildPictureUrl, h, h1, h2, hdig]
      · have := hdig
        simp only [isAllDigits, Bool.and_eq_true, List.all_eq_true] at this
        simp only [List.all_eq_true]
        exact this.2
      · intro hnil
        have := hdig
        simp [isAllDigits, hnil] at this
    · intro hdig
      simp [buildPictureUrl, h, h1, h2, hdig]

/-- Claim C6 witness: the numeric file reference `"295082.jpg"` produces
the CDN URL built from the stripped numeric id, without the fallback
flag. -/
theorem claim6_witness :
    buildPictureUrl (some pictureFixtureValue) =
      ("https://cdn-eu.anidb.net/images/main/295082.jpg", false) ∧
    ((extractImageId (jsTrim pictureFixtureValue)).data.all Char.isDigit = true ∧
      (extractImageId (jsTrim pictureFixtureValue)).data ≠ []) := by
  have h := ((claim6_theorem pictureFixtureValue).2.2 (by decide) (by decide)
    (by decide)).1 (by decide)
  exact ⟨by rw [h.1]; decide, h.2⟩

/-! ## Claim C7 -/

/-- Claim C7, as stated, is false: the `fetch` call in `getAnimeByAid`
carries no timeout at all — no `AbortSignal` is attached to its options
(only the `Accept` header and the CORS mode are set), so there is no
10-second expiry that aborts the in-flight request. -/
theorem claim7_counterexample :
    ¬∃ t, anidbFetchOptions.signal = some t := by
  rintro ⟨t, ht⟩
  simp [anidbFetchOptions] at ht

/-- Claim C7 (amended): the live request carries no explicit timeout
(`signal` is unset; any expiry is the browser default, not a configured
10 s abort), but the second half of the claim holds: `lastRequestTime`
is stamped at send time, before the response resolves, so a cache-miss
call — whatever its outcome, including a network failure — records
exactly one send whose instant is the post-call stamp and therefore
still counts against the rate-limit window. -/
theorem claim7_theorem (env : NetEnv) (aid : Nat) (s : ClientState)
    (h : lookupNat s.cache aid = none) :
    anidbFetchOptions.signal = none ∧
    (getAnimeByAid env aid s).sends =
      [(getAnimeByAid env aid s).state.lastRequestTime] := by
  obtain ⟨r, c, heq⟩ := getAnimeByAid_miss env aid s h
  rw [heq]
  exact ⟨rfl, rfl⟩

/-- Claim C7 witness: a rejected fetch from a fresh state still counts —
the one send is recorded and stamps `lastRequestTime`. -/
theorem claim7_witness :
    anidbFetchOptions.signal = none ∧
    (getAnimeByAid rejectEnv 3 emptyClientState).sends =
      [(getAnimeByAid rejectEnv 3 emptyClientState).state.lastRequestTime] :=
  claim7_theorem rejectEnv 3 emptyClientState (by decide)

/-! ## Claim C8 -/

/-- Claim C8, as stated, is false: for the source's standard banned
response `<error>banned</error>`, the raw-text pre-check in
`getAnimeByAid` fires before `extractAnimeData` is ever reached, and the
call fails with the generic message `AniDB API 错误: banned` — a typed
`AnidbError`, but with no remediation guidance in it (the message does
not contain the guidance marker 建议). -/
theorem claim8_counterexample :
    (getAnimeByAid bannedPlainEnv 1 emptyClientState).result =
      .error ⟨"AniDB API 错误: banned"⟩ ∧
    includesSub "AniDB API 错误: banned" "建议" = false := by
  constructor
  · decide
  · decide

/-- Claim C8 (amended): the remediation-guidance Banned message is
produced only when the error element is reached through
`extractAnimeData` — that is, when the raw response text does not contain
the literal `"<error>"` (for instance when the error tag carries
attributes); in that case the call fails with the typed `AnidbError`
whose message does include the guidance (建议 section), and no automatic
retry happens: the call issues at most one network request.  For the
plain `<error>` shape the failure is still a typed error but carries the
generic message instead (see `claim8_counterexample`). -/
theorem claim8_theorem (env : NetEnv) (aid : Nat) (s : ClientState)
    (xmlText : String) (d : XmlDoc) (txt : String) (latency : Nat)
    (h1 : lookupNat s.cache aid = none)
    (h2 : env aid = (latency, .ok xmlText (.ok d)))
    (h3 : includesSub xmlText "<error>" = false)
    (h4 : d.animeEl = none)
    (h5 : d.errorText = some txt)
    (h6 : includesSub (jsToLower txt) "banned" = true)
    (h7 : txt ≠ "") :
    (getAnimeByAid env aid s).result = .error ⟨bannedGuidanceMessage txt⟩ ∧
    includesSub (bannedGuidanceMessage txt) "建议" = true ∧
    (getAnimeByAid env aid s).sends.length ≤ 1 := by
  refine ⟨?_, ?_, ?_⟩
  · simp [getAnimeByAid, h1, h2, processResponse, parseStage, extractAnimeData,
      h3, h4, h5, h6, h7]
  · unfold includesSub bannedGuidanceMessage
    rw [data_append, data_append]
    apply listContainsSub_append_right
    apply listContainsSub_append_right
    decide
  · obtain ⟨r, c, heq⟩ := getAnimeByAid_miss env aid s h1
    rw [heq]
    simp

/-- Claim C8 witness: an attributed error tag (`<error code=1>`) escapes
the raw-text pre-check, reaches `extractAnimeData`, and fails with the
guidance-carrying Banned message in one send. -/
theorem claim8_witness :
    (getAnimeByAid bannedAttrEnv 1 emptyClientState).result =
      .error ⟨bannedGuidanceMessage "banned"⟩ ∧
    includesSub (bannedGuidanceMessage "banned") "建议" = true ∧
    (getAnimeByAid bannedAttrEnv 1 emptyClientState).sends.length ≤ 1 :=
  claim8_theorem bannedAttrEnv 1 emptyClientState
    "<error code=1>banned</error>" ⟨none, some "banned"⟩ "banned" 0
    (by decide) rfl (by decide) rfl rfl (by decide) (by decide)

/-! ## Claim C9 -/

/-- Claim C9: a failed load of the static title dataset degrades instead
of crashing — `initAnimeTitles` swallows the load error and resolves
normally, and every `searchAnimeTitles` call whose load fails returns the
empty list rather than throwing (in the code the failed loader is retried
by a later call; this theorem is about every call that observes a failed
load). -/
theorem claim9_theorem (e : String) (keyword : String) (limit : Nat) :
    initAnimeTitles (Except.error e) = .ok () ∧
    searchAnimeTitles (Except.error e) keyword limit = [] := by
  refine ⟨rfl, ?_⟩
  unfold searchAnimeTitles
  split <;> rfl

/-! ## Claim C10 -/

/-- Claim C10, as stated, is false: the all-digits keyword `"0"` parses to
the number 0, which is falsy in the `if (directAid)` test, so the search
does consult the local title index instead of treating the keyword as a
direct identifier — against an index where some title contains the digit
0, the candidate list is that index match, not `[0]`. -/
theorem claim10_counterexample :
    isAllDigits (jsTrim "0") = true ∧
    candidateAids (Except.ok titleIndexFixture) "0" 1 20 = [5] ∧
    candidateAids (Except.ok titleIndexFixture) "0" 1 20 ≠ [0] := by
  refine ⟨by decide, by decide, by decide⟩

/-- Claim C10 (amended): an all-digits keyword whose parsed value is
non-zero bypasses the local title index entirely — for every load
outcome the candidate list is exactly the parsed identifier; the keyword
`"0"` (parsed value 0, falsy) instead falls through to the title-index
search. -/
theorem claim10_theorem (load : LoadOutcome) (keyword : String)
    (page results n : Nat)
    (h1 : isAllDigits (jsTrim keyword) = true)
    (h2 : parseIntJs (jsTrim keyword) = some n) :
    (n ≠ 0 → candidateAids load keyword page results = [n]) ∧
    (n = 0 → candidateAids load keyword page results =
      searchAnimeTitles load keyword (results * page)) := by
  constructor
  · intro hn
    simp [candidateAids, h1, h2, hn]
  · intro hn
    subst hn
    simp [candidateAids, h1, h2]

/-- Claim C10 witness: the keyword `"123"` resolves to the single
candidate 123 even when the title index failed to load — the index is
bypassed. -/
theorem claim10_witness :
    candidateAids (Except.error "load failed") "123" 1 20 = [123] :=
  (claim10_theorem (Except.error "load failed") "123" 1 20 123
    (by decide) (by decide)).1 (by decide)
